import Mathlib

/-!
Shallow embedding of grib_utils.py (repository ig248/weather).

The repository is a thin presentation/filtering layer over the external
pygrib decoding library.  Messages decoded by pygrib are modelled as
association lists from attribute names to optional values: an entry
mapped to none stands for a key that is listed by the message but whose
lookup raises, and a key absent from the list stands for an attribute
whose lookup raises as well.  Python exceptions are modelled with an
explicit error type and Except.  Numeric grids (numpy arrays) are lists
of lists of rationals.
-/

namespace GribUtils

/-- Scalar or array attribute values carried by a grib message. -/
inductive Value where
  | int : Int → Value
  | str : String → Value
  | arr : List Int → Value
deriving DecidableEq

/-- Python exceptions raised by the code paths modelled here. -/
inductive PyError where
  | keyError : String → PyError
  | ioError : String → PyError
  | nameError : String → PyError
  | typeError : String → PyError
  | indexError : String → PyError
  | valueError : String → PyError
deriving DecidableEq

/-- One decoded grib message: named attributes plus the value grid and
the two coordinate grids returned by grb.values and grb.latlons(). -/
structure GribMsg where
  attrs : List (String × Option Value)
  values : List (List Rat) := []
  lats : List (List Rat) := []
  lons : List (List Rat) := []
deriving DecidableEq

/-- The keys listed by a message (grb.keys() in pygrib). -/
def GribMsg.keys (g : GribMsg) : List String := g.attrs.map Prod.fst

/-- Attribute lookup, grb[k] in pygrib: none models a lookup that raises,
either because the key is absent or because it is unreadable. -/
def GribMsg.get (g : GribMsg) (k : String) : Option Value :=
  match g.attrs.find? (fun p => p.fst == k) with
  | some p => p.snd
  | none => none

/-- Helper for the in-place assignment grb[k] = v used by open_grib. -/
def setAttr : List (String × Option Value) → String → Value → List (String × Option Value)
  | [], k, v => [(k, some v)]
  | (k0, v0) :: rest, k, v =>
    if k0 = k then (k0, some v) :: rest else (k0, v0) :: setAttr rest k v

/-- Attribute assignment on a message (grb[k] = v). -/
def GribMsg.set (g : GribMsg) (k : String) (v : Value) : GribMsg :=
  { g with attrs := setAttr g.attrs k v }

/-- Result shape shared by open_grib and filter_grib_layers: both collapse
a length-one list to the bare message. -/
inductive MsgOrList where
  | msg : GribMsg → MsgOrList
  | seq : List GribMsg → MsgOrList
deriving DecidableEq

/-- Embedding of open_grib after the external call pygrib.open(path).select():
the argument decoded stands for the list of messages the external library
produced for the resource.  When timestep_interval_mins < 60 every message
has its stepUnits attribute overwritten with 0, and a singleton list is
collapsed to the bare message (lines 100 to 108 of grib_utils.py). -/
def open_grib (decoded : List GribMsg) (timestep_interval_mins : Int := 60) : MsgOrList :=
  let grbs := if timestep_interval_mins < 60
    then decoded.map (fun g => g.set "stepUnits" (.int 0))
    else decoded
  match grbs with
  | [g] => .msg g
  | l => .seq l

/-- A value of a keyword filter argument: a bare value, a Python list, or a
Python set.  Only a list satisfies isinstance(x, list) in the source. -/
inductive FilterVal where
  | single : Value → FilterVal
  | list : List Value → FilterVal
  | set : List Value → FilterVal
deriving DecidableEq

/-- Embedding of the passes_filters helper inside filter_grib_layers
(lines 122 to 138): each filter key is looked up on the message, which
raises when the attribute is absent; a list filter value is a membership
test, any other filter value is an equality comparison, and a message
scalar never equals a Python set. -/
def passes_filters (filters : List (String × FilterVal)) (grb : GribMsg) : Except PyError Bool :=
  match filters with
  | [] => .ok true
  | (k, fv) :: rest =>
    match fv with
    | .list accepted =>
      match grb.get k with
      | none => .error (.keyError k)
      | some v => if v ∈ accepted then passes_filters rest grb else .ok false
    | .single w =>
      match grb.get k with
      | none => .error (.keyError k)
      | some v => if v = w then passes_filters rest grb else .ok false
    | .set _ =>
      match grb.get k with
      | none => .error (.keyError k)
      | some _ => .ok false

/-- The list comprehension of line 141: evaluates passes_filters on each
message in order; an exception raised for any message aborts the whole
comprehension. -/
def filterMessages (filters : List (String × FilterVal)) : List GribMsg → Except PyError (List GribMsg)
  | [] => .ok []
  | g :: rest => do
    let b ← passes_filters filters g
    let tail ← filterMessages filters rest
    pure (if b then g :: tail else tail)

/-- Embedding of filter_grib_layers (lines 110 to 148): filter the list,
then collapse a length-one result to the bare message. -/
def filter_grib_layers (grbs : List GribMsg) (filters : List (String × FilterVal)) :
    Except PyError MsgOrList := do
  let ok ← filterMessages filters grbs
  pure (match ok with | [g] => MsgOrList.msg g | l => MsgOrList.seq l)

/-- Gregorian leap year test, as used by Python strptime. -/
def isLeap (y : Nat) : Bool := (y % 4 == 0 && y % 100 != 0) || y % 400 == 0

/-- Number of days of a month in the proleptic Gregorian calendar. -/
def daysInMonth (y m : Nat) : Nat :=
  if m = 2 then (if isLeap y then 29 else 28)
  else if m = 4 ∨ m = 6 ∨ m = 9 ∨ m = 11 then 30 else 31

/-- Days from the start of year y to the start of month m. -/
def daysBeforeMonth (y m : Nat) : Nat :=
  ((List.range (m - 1)).map (fun k => daysInMonth y (k + 1))).sum

/-- Days from 0001-01-01 to the start of year y (proleptic Gregorian). -/
def daysBeforeYear (y : Nat) : Nat :=
  365 * (y - 1) + (y - 1) / 4 - (y - 1) / 100 + (y - 1) / 400

/-- A datetime as minutes elapsed since 0001-01-01T00:00, the timestamp
model used for datetime values returned by strptime. -/
def toEpochMinutes (y mo d h mi : Nat) : Int :=
  (((daysBeforeYear y + daysBeforeMonth y mo + (d - 1)) * 24 + h) * 60 + mi : Nat)

/-- The strptime call of line 155: parse str(dataDate) followed by
str(dataTime).zfill(4) with format Y m d H M.  Requires dataDate to have
exactly eight digits and the zero-filled dataTime to be a valid HHMM,
with calendar fields in range; otherwise strptime raises ValueError,
modelled as none. -/
def parseYmdHM (d t : Nat) : Option Int :=
  let y := d / 10000
  let mo := d / 100 % 100
  let dy := d % 100
  let h := t / 100
  let mi := t % 100
  if 10000000 ≤ d ∧ d < 100000000 ∧ t < 10000 ∧
     1 ≤ mo ∧ mo ≤ 12 ∧ 1 ≤ dy ∧ dy ≤ daysInMonth y mo ∧ h < 24 ∧ mi < 60
  then some (toEpochMinutes y mo dy h mi) else none

/-- Embedding of get_grib_layer_simulation_datetime (lines 150 to 155):
look up dataTime then dataDate (raising KeyError when absent, in that
order, following the source's statement order), stringify and parse.
Only integer attribute values stringify to parseable digit strings. -/
def get_grib_layer_simulation_datetime (grb : GribMsg) : Except PyError Int :=
  match grb.get "dataTime" with
  | none => .error (.keyError "dataTime")
  | some tv =>
    match grb.get "dataDate" with
    | none => .error (.keyError "dataDate")
    | some dv =>
      match tv, dv with
      | .int t, .int d =>
        if 0 ≤ t ∧ 0 ≤ d then
          match parseYmdHM d.toNat t.toNat with
          | some ts => .ok ts
          | none => .error (.valueError "time data does not match format")
        else .error (.valueError "time data does not match format")
      | _, _ => .error (.valueError "time data does not match format")

/-- Embedding of get_grib_layer_validity_datetime (lines 157 to 160):
simulation time plus timedelta(minutes = int(endStep)).  The left operand
is evaluated first, then the endStep lookup. -/
def get_grib_layer_validity_datetime (grb : GribMsg) : Except PyError Int := do
  let s ← get_grib_layer_simulation_datetime grb
  match grb.get "endStep" with
  | none => .error (.keyError "endStep")
  | some (.int e) => .ok (s + e)
  | some _ => .error (.valueError "invalid literal for int")

/-- The error text of lines 177 to 178, with the layer count spliced in. -/
def multiLayerErrMsg (n : Nat) : String :=
  "You can only pass a one-layered grib list or a grib message. " ++
  "You passed a grib with " ++ toString n ++ " layers."

/-- Elementwise effect on one grid row of the numpy assignment
values[values < nodata_buffer] = nodata of line 182: a signed comparison,
every entry strictly below the buffer becomes the nodata value. -/
def clampRow (buf nod : Rat) (row : List Rat) : List Rat :=
  row.map (fun x => if x < buf then nod else x)

/-- Embedding of grib_message_to_arrays_raster (lines 162 to 186): unwrap
a length-one list, raise on any other list, then read the value grid,
apply the nodata clamp when the buffer is truthy (nonzero), and return
values, lats, lons. -/
def grib_message_to_arrays_raster (grb : MsgOrList) (nodata_buffer : Rat := 1/1000)
    (nodata : Rat := 0) :
    Except PyError (List (List Rat) × List (List Rat) × List (List Rat)) := do
  let g ← match grb with
    | .seq [g] => Except.ok g
    | .seq l => Except.error (.ioError (multiLayerErrMsg l.length))
    | .msg g => Except.ok g
  let values := if nodata_buffer ≠ 0 then g.values.map (clampRow nodata_buffer nodata)
    else g.values
  pure (values, g.lats, g.lons)

/-- The two pandas display options touched by print_full_df. -/
structure DisplayOpts where
  max_rows : Nat
  max_columns : Nat
deriving DecidableEq

/-- The pandas library default for display.max_rows, the value installed
by pd.reset_option. -/
def pandas_default_max_rows : Nat := 60

/-- The pandas library default for display.max_columns, the value
installed by pd.reset_option. -/
def pandas_default_max_columns : Nat := 20

/-- Embedding of print_full_df (lines 188 to 195) as a transformer of the
process-wide display options.  nrows and ncols are len(x.index) and
len(x.columns); printRaises says whether the print call raises.  The two
set_option calls install the widened limits; on the normal path the two
reset_option calls then install the library defaults (not the caller's
prior values); there is no try/finally, so when print raises the function
exits with the widened limits still installed.  The first component is
none when the call raised. -/
def print_full_df (nrows ncols : Nat) (printRaises : Bool) (opts : DisplayOpts) :
    Option Unit × DisplayOpts :=
  let widened : DisplayOpts := ⟨nrows, ncols⟩
  if printRaises then (none, widened)
  else (some (), ⟨pandas_default_max_rows, pandas_default_max_columns⟩)

/-- The null-coalescing rule of lines 31 to 38 for one table cell: a
lookup that raises becomes None, and list or array values are also
replaced with None. -/
def coalesceValue (v : Option Value) : Option Value :=
  match v with
  | some (.arr _) => none
  | some v => some v
  | none => none

/-- Cell value of the report table for one message and one feature name. -/
def cellValue (g : GribMsg) (feature : String) : Option Value :=
  coalesceValue (g.get feature)

/-- The values list built for one message by the loop of lines 28 to 39:
iterate the message's own keys and coalesce each lookup. -/
def columnValues (g : GribMsg) : List (Option Value) :=
  g.keys.map (fun f => cellValue g f)

/-- pd.Series.nunique with its default dropna: the number of distinct
non-null values of a row. -/
def nunique (row : List (Option Value)) : Nat := (row.filterMap id).dedup.length

/-- The table of line 25 to 41 as rows: the index is the first message's
key list, and the assignment df[i] = values aligns each message's values
list with the index positionally. -/
def tableRows (grbs : List GribMsg) (g0 : GribMsg) : List (String × List (Option Value)) :=
  (List.range g0.keys.length).map
    (fun j => (g0.keys.getD j "", grbs.map (fun g => (columnValues g).getD j none)))

/-- Insert one row into a list of rows sorted by attribute name. -/
def insertRow (r : String × List (Option Value)) :
    List (String × List (Option Value)) → List (String × List (Option Value))
  | [] => [r]
  | s :: rest => if r.1 ≤ s.1 then r :: s :: rest else s :: insertRow r rest

/-- df.sort_index() on the rows: stable sort by attribute name. -/
def sortRowsByName (rows : List (String × List (Option Value))) :
    List (String × List (Option Value)) :=
  rows.foldr insertRow []

/-- Lines 43 and 44: the rows whose distinct non-null value count equals
one, sorted by attribute name. -/
def df_same (rows : List (String × List (Option Value))) :
    List (String × List (Option Value)) :=
  sortRowsByName (rows.filter (fun r => nunique r.2 == 1))

/-- Line 45: the rows with more than one distinct non-null value (the
transpose is display-only and does not change which rows are selected). -/
def df_unique (rows : List (String × List (Option Value))) :
    List (String × List (Option Value)) :=
  rows.filter (fun r => decide (1 < nunique r.2))

/-- Attribute lookup that raises KeyError when it fails, used for the
header lines of the report, which access grbs[0] without a try block. -/
def lookupOrRaise (g : GribMsg) (k : String) : Except PyError Value :=
  match g.get k with
  | some v => .ok v
  | none => .error (.keyError k)

/-- The header prints of lines 54 to 58: the date line looks up dataDate
and dataTime on the first message when both are in the index; the size
line tests for Nx twice (the source never tests Ny) and then looks up Nx
and Ny, so a missing Ny raises here. -/
def report_headers (g0 : GribMsg) : Except PyError Unit := do
  if "dataDate" ∈ g0.keys ∧ "dataTime" ∈ g0.keys then
    let _ ← lookupOrRaise g0 "dataDate"
    let _ ← lookupOrRaise g0 "dataTime"
  if "Nx" ∈ g0.keys then
    let _ ← lookupOrRaise g0 "Nx"
    let _ ← lookupOrRaise g0 "Ny"
  pure ()

/-- The argument given to print_grib_content_report: a path string, a
list of messages, or a bare message. -/
inductive ReportInput where
  | path : String → ReportInput
  | seq : List GribMsg → ReportInput
  | msg : GribMsg → ReportInput

/-- Embedding of print_grib_content_report (lines 9 to 81), returning the
pair of selected row lists (df_same, df_unique) that the report renders.
The decode argument stands for the external pygrib decoding of a path.
The source's line 19 tests isinstance(grbfile, list), but the parameter
is named gribfile, so every non-string argument raises NameError there.
On the path branch, open_grib collapses a single message to a bare
message, on which the subsequent grbs[0] indexing raises TypeError, and
an empty decode makes grbs[0] raise IndexError.  Building the frame
raises ValueError when a message's key count differs from the first
message's (the positional assignment df[i] = values needs equal
lengths); afterwards the header lookups may raise. -/
def print_grib_content_report (decode : String → List GribMsg) (gribfile : ReportInput) :
    Except PyError ((List (String × List (Option Value))) × (List (String × List (Option Value)))) :=
  match gribfile with
  | .seq _ => .error (.nameError "grbfile")
  | .msg _ => .error (.nameError "grbfile")
  | .path p =>
    match open_grib (decode p) 60 with
    | .msg _ => .error (.typeError "unsupported grib message key type")
    | .seq [] => .error (.indexError "list index out of range")
    | .seq (g0 :: rest) =>
      let grbs := g0 :: rest
      if grbs.all (fun g => g.keys.length == g0.keys.length) then do
        let rows := tableRows grbs g0
        let _ ← report_headers g0
        pure (df_same rows, df_unique rows)
      else .error (.valueError "Length of values does not match length of index")

/-- A message with no attributes at all. -/
def mEmpty : GribMsg := { attrs := [] }

/-- A message carrying only shortName = tp. -/
def mTp : GribMsg := { attrs := [("shortName", some (.str "tp"))] }

/-- A message whose only grid entry is the large negative value -5. -/
def gNeg : GribMsg := { attrs := [], values := [[-5]], lats := [[0]], lons := [[0]] }

/-- A message whose grid holds one sub-threshold and one large entry. -/
def gBelow : GribMsg :=
  { attrs := [], values := [[1/2000, 5]], lats := [[0, 0]], lons := [[0, 0]] }

/-- A message with the three temporal attributes of the spec example. -/
def gC6 : GribMsg :=
  { attrs := [("dataTime", some (.int 600)), ("dataDate", some (.int 20170104)),
              ("endStep", some (.int 180))] }

/-- A message whose only attribute is array-valued. -/
def gArrA : GribMsg := { attrs := [("codedValues", some (.arr [1]))] }

/-- A message listing the same key but with an unreadable value. -/
def gArrB : GribMsg := { attrs := [("codedValues", none)] }

/-- A message carrying only dataDate. -/
def mDD : GribMsg := { attrs := [("dataDate", some (.int 20170104))] }

/-- Specification predicate for the nodata cleanup of the raster
extractor: extraction succeeds, keeps the coordinate grids and the grid
shape, and each entry in range is replaced by the nodata value exactly
when it is (signedly) below the buffer and kept unchanged otherwise. -/
def nodataClampOk (g : GribMsg) (buf nod : Rat) : Prop :=
  ∃ vals, grib_message_to_arrays_raster (.msg g) buf nod = .ok (vals, g.lats, g.lons) ∧
    vals.length = g.values.length ∧
    ∀ i j, i < g.values.length → j < (g.values.getD i []).length →
      (((g.values.getD i []).getD j 0 < buf → (vals.getD i []).getD j 0 = nod) ∧
       (buf ≤ (g.values.getD i []).getD j 0 →
         (vals.getD i []).getD j 0 = (g.values.getD i []).getD j 0))

theorem filterMessages_error_of_mem (filters : List (String × FilterVal))
    (grbs : List GribMsg) (g : GribMsg) (e : PyError) (hg : g ∈ grbs)
    (he : passes_filters filters g = .error e) :
    ∃ eo, filterMessages filters grbs = .error eo := by
  induction grbs with
  | nil => cases hg
  | cons a rest ih =>
    rcases List.mem_cons.mp hg with hga | hmem
    · subst hga
      exact ⟨e, by simp only [filterMessages, he]; rfl⟩
    · cases hpa : passes_filters filters a with
      | error e2 => exact ⟨e2, by simp only [filterMessages, hpa]; rfl⟩
      | ok b =>
        obtain ⟨eo, ho⟩ := ih hmem
        exact ⟨eo, by simp only [filterMessages, hpa, ho]; rfl⟩

theorem filterMessages_nil_filters (grbs : List GribMsg) :
    filterMessages [] grbs = .ok grbs := by
  induction grbs with
  | nil => rfl
  | cons a rest ih => simp only [filterMessages, passes_filters, ih]; rfl

/-- C1, counterexample: on a one-message list whose message lacks the
filtered attribute, filter_grib_layers propagates a KeyError instead of
returning the empty selection, refuting the claim that a message with a
failing lookup is simply excluded and no exception reaches the caller. -/
theorem C1_counterexample :
    filter_grib_layers [mEmpty] [("shortName", FilterVal.single (Value.str "tp"))] =
      .error (.keyError "shortName") := rfl

/-- C1, amended: a message on which some filter key's attribute lookup
raises is not excluded from the result; instead filter_grib_layers
propagates an attribute-lookup error to the caller whenever any input
message's filter evaluation raises. -/
theorem C1_amended (grbs : List GribMsg) (filters : List (String × FilterVal))
    (g : GribMsg) (e : PyError) (hg : g ∈ grbs)
    (he : passes_filters filters g = .error e) :
    ∃ eo, filter_grib_layers grbs filters = .error eo := by
  obtain ⟨eo, ho⟩ := filterMessages_error_of_mem filters grbs g e hg he
  exact ⟨eo, by simp [filter_grib_layers, ho]⟩

/-- C1, witness: the amended theorem applied to a concrete one-message
list lacking the filtered attribute. -/
theorem C1_witness :
    (mEmpty ∈ [mEmpty]) ∧
    passes_filters [("shortName", FilterVal.single (Value.str "tp"))] mEmpty =
      .error (.keyError "shortName") ∧
    ∃ eo, filter_grib_layers [mEmpty] [("shortName", FilterVal.single (Value.str "tp"))] =
      .error eo :=
  ⟨List.mem_singleton.mpr rfl, rfl,
    C1_amended [mEmpty] [("shortName", FilterVal.single (Value.str "tp"))] mEmpty
      (.keyError "shortName") (List.mem_singleton.mpr rfl) rfl⟩

/-- C3, counterexample: filtering a length-one sequence by the empty
filter does not return the sequence unchanged; the singleton list is
collapsed to the bare message, so the sequence shape is not preserved. -/
theorem C3_counterexample :
    filter_grib_layers [mTp] [] = .ok (MsgOrList.msg mTp) ∧
    MsgOrList.msg mTp ≠ MsgOrList.seq [mTp] :=
  ⟨rfl, by simp⟩

/-- C3, amended: filtering by an empty filter keeps every message in
order and never fails, but a length-one input is returned as the bare
unwrapped message rather than as a sequence of length one; inputs of any
other length come back as the same sequence. -/
theorem C3_amended (grbs : List GribMsg) :
    filter_grib_layers grbs [] =
      .ok (match grbs with | [g] => MsgOrList.msg g | l => MsgOrList.seq l) := by
  simp [filter_grib_layers, filterMessages_nil_filters grbs]

/-- C4, counterexample: open_grib on a decode result of exactly one
message returns the bare message, not a sequence of length one. -/
theorem C4_counterexample :
    open_grib [mTp] 60 = MsgOrList.msg mTp ∧
    MsgOrList.msg mTp ≠ MsgOrList.seq [mTp] :=
  ⟨rfl, by simp⟩

/-- C4, amended: whenever decoding yields exactly one message, open_grib
collapses the result to the bare (possibly stepUnits-patched) message and
never returns a sequence. -/
theorem C4_amended (decoded : List GribMsg) (t : Int) (h : decoded.length = 1) :
    ∃ m, open_grib decoded t = MsgOrList.msg m ∧
      ∀ l, open_grib decoded t ≠ MsgOrList.seq l := by
  obtain ⟨g, rfl⟩ := List.length_eq_one.mp h
  by_cases ht : t < 60
  · exact ⟨g.set "stepUnits" (.int 0), by simp [open_grib, ht], by simp [open_grib, ht]⟩
  · exact ⟨g, by simp [open_grib, ht], by simp [open_grib, ht]⟩

/-- C4, witness: the amended theorem applied to a concrete singleton
decode result. -/
theorem C4_witness :
    ([mTp].length = 1) ∧
    ∃ m, open_grib [mTp] 60 = MsgOrList.msg m ∧
      ∀ l, open_grib [mTp] 60 ≠ MsgOrList.seq l :=
  ⟨rfl, C4_amended [mTp] 60 rfl⟩

/-- C7, counterexample: with the accepted values given as a Python set,
a message whose attribute value is a member of the set still fails the
filter entry, while the same collection given as a list passes it. -/
theorem C7_counterexample :
    passes_filters [("shortName", FilterVal.set [Value.str "tp"])] mTp = .ok false ∧
    Value.str "tp" ∈ [Value.str "tp"] ∧
    passes_filters [("shortName", FilterVal.list [Value.str "tp"])] mTp = .ok true :=
  ⟨rfl, List.mem_singleton.mpr rfl, rfl⟩

/-- C7, amended: the membership test applies only when the accepted
collection is given as a list; a set-valued filter entry is compared by
equality against the attribute value and therefore always fails for the
scalar attribute values messages carry. -/
theorem C7_amended (m : GribMsg) (k : String) (v : Value) (l s : List Value)
    (h : m.get k = some v) :
    passes_filters [(k, FilterVal.list l)] m = .ok (decide (v ∈ l)) ∧
    passes_filters [(k, FilterVal.set s)] m = .ok false := by
  constructor
  · by_cases hv : v ∈ l <;> simp [passes_filters, h, hv]
  · simp [passes_filters, h]

/-- C7, witness: the amended theorem applied to a concrete message and a
concrete two-element accepted list and one-element accepted set. -/
theorem C7_witness :
    (mTp.get "shortName" = some (Value.str "tp")) ∧
    passes_filters [("shortName", FilterVal.list [Value.str "tp", Value.str "sp"])] mTp =
      .ok (decide (Value.str "tp" ∈ [Value.str "tp", Value.str "sp"])) ∧
    passes_filters [("shortName", FilterVal.set [Value.str "tp"])] mTp = .ok false :=
  ⟨rfl, C7_amended mTp "shortName" (Value.str "tp")
    [Value.str "tp", Value.str "sp"] [Value.str "tp"] rfl⟩

/-- C8, counterexample: with prior display limits 5 and 5, neither the
raising path nor the successful path of print_full_df restores the prior
limits, refuting the claim that they are restored on every exit path. -/
theorem C8_counterexample :
    ((print_full_df 10 10 true ⟨5, 5⟩).2 ≠ (⟨5, 5⟩ : DisplayOpts)) ∧
    ((print_full_df 10 10 false ⟨5, 5⟩).2 ≠ (⟨5, 5⟩ : DisplayOpts)) := by
  constructor <;> decide

/-- C8, amended: print_full_df widens the display limits to the frame's
dimensions; on successful printing it resets both limits to the pandas
library defaults, not the caller's prior values, and when printing raises
the widened limits remain installed because there is no try/finally. -/
theorem C8_amended (nrows ncols : Nat) (opts : DisplayOpts) :
    (print_full_df nrows ncols false opts).2 =
      ⟨pandas_default_max_rows, pandas_default_max_columns⟩ ∧
    (print_full_df nrows ncols true opts).2 = ⟨nrows, ncols⟩ ∧
    (print_full_df nrows ncols true opts).1 = none :=
  ⟨rfl, rfl, rfl⟩

/-- C9: evaluating print_grib_content_report at a list of two messages,
where dataDate is present on the first and absent on the second, raises
NameError because line 19 of the source misspells the parameter gribfile
as grbfile; the documented behavior, accepting a list and coalescing
failed lookups, is never reached. -/
theorem C9_thm :
    print_grib_content_report (fun _ => []) (.seq [mDD, mEmpty]) =
      .error (.nameError "grbfile") := rfl

/-- C2, counterexample: with the default threshold 1/1000, the grid entry
-5, whose magnitude 5 is far above the threshold, is replaced by the
nodata value 0, because line 182 compares signed values rather than
magnitudes; this refutes the claim that entries of absolute value at or
above the threshold are unchanged. -/
theorem C2_counterexample :
    grib_message_to_arrays_raster (.msg gNeg) (1/1000) 0 = .ok ([[0]], [[0]], [[0]]) ∧
    ¬ (|(-5 : Rat)| < 1/1000) := by
  constructor
  · norm_num [grib_message_to_arrays_raster, clampRow, gNeg]
  · norm_num

/-- C2, amended: for every non-zero threshold, after extraction each
value-grid entry that is signedly below the threshold equals the nodata
value, and each entry at or above the threshold (as a signed comparison,
not a magnitude comparison) is unchanged; coordinate grids and the grid
shape are preserved. -/
theorem C2_amended (g : GribMsg) (buf nod : Rat) (hbuf : buf ≠ 0) :
    nodataClampOk g buf nod := by
  refine ⟨g.values.map (clampRow buf nod), ?_, by simp, ?_⟩
  · simp [grib_message_to_arrays_raster, hbuf]
  · intro i j hi hj
    have hrow : (g.values.map (clampRow buf nod)).getD i [] =
        clampRow buf nod (g.values.getD i []) := by
      simp [List.getD_eq_getElem?_getD, List.getElem?_map, List.getElem?_eq_getElem hi]
    have hgen : ∀ (l : List Rat), j < l.length →
        (clampRow buf nod l).getD j 0 = (if l.getD j 0 < buf then nod else l.getD j 0) := by
      intro l hjl
      simp [clampRow, List.getD_eq_getElem?_getD, List.getElem?_map,
        List.getElem?_eq_getElem hjl]
    have hcell := hgen (g.values.getD i []) hj
    rw [hrow, hcell]
    constructor
    · intro hlt; rw [if_pos hlt]
    · intro hge; rw [if_neg (not_lt.mpr hge)]

/-- C2, witness: the amended theorem at the default threshold on a grid
holding one sub-threshold entry and one large entry. -/
theorem C2_witness : ((1 : Rat)/1000 ≠ 0) ∧ nodataClampOk gBelow (1/1000) 0 :=
  ⟨by norm_num, C2_amended gBelow (1/1000) 0 (by norm_num)⟩

/-- C5: extraction from a one-element sequence equals extraction from the
bare message for every threshold and nodata value; every sequence of
length greater than one fails with the multi-layer IOError whose message
states the sequence's count; and in particular the message text for a
length-2 input mentions the count 2 (the character 2, code 50, occurs in
the message text). -/
theorem C5_thm : (∀ (g : GribMsg) (buf nod : Rat),
      grib_message_to_arrays_raster (.seq [g]) buf nod =
        grib_message_to_arrays_raster (.msg g) buf nod) ∧
    (∀ (l : List GribMsg) (buf nod : Rat), 1 < l.length →
      grib_message_to_arrays_raster (.seq l) buf nod =
        .error (.ioError (multiLayerErrMsg l.length))) ∧
    (multiLayerErrMsg 2).toList.contains (Char.ofNat 50) = true := by
  refine ⟨fun g buf nod => rfl, fun l buf nod hl => ?_, by decide⟩
  cases l with
  | nil => simp at hl
  | cons a t =>
    cases t with
    | nil => simp at hl
    | cons b r => rfl

/-- C5, witness: the theorem's length-greater-than-one part applied to a
concrete two-message sequence, together with its mentions-2 part. -/
theorem C5_witness :
    (1 < [mTp, mEmpty].length) ∧
    grib_message_to_arrays_raster (.seq [mTp, mEmpty]) 1 0 =
      .error (.ioError (multiLayerErrMsg 2)) ∧
    (multiLayerErrMsg 2).toList.contains (Char.ofNat 50) = true :=
  ⟨by decide, C5_thm.2.1 [mTp, mEmpty] 1 0 (by decide), C5_thm.2.2⟩

/-- C6: on any message carrying integer dataDate, dataTime and endStep
whose stringified concatenation parses as YYYYMMDDHHMM, the simulation
time is the parsed timestamp and the validity time is the simulation time
plus endStep minutes; in particular the message with dataDate 20170104,
dataTime 600 and endStep 180 has simulation time 2017-01-04T06:00 and
validity time 2017-01-04T09:00. -/
theorem C6_thm : (∀ (grb : GribMsg) (d t e ts : Int),
      grb.get "dataDate" = some (.int d) → grb.get "dataTime" = some (.int t) →
      grb.get "endStep" = some (.int e) → 0 ≤ t → 0 ≤ d →
      parseYmdHM d.toNat t.toNat = some ts →
      get_grib_layer_simulation_datetime grb = .ok ts ∧
      get_grib_layer_validity_datetime grb = .ok (ts + e)) ∧
    (get_grib_layer_simulation_datetime gC6 = .ok (toEpochMinutes 2017 1 4 6 0) ∧
     get_grib_layer_validity_datetime gC6 = .ok (toEpochMinutes 2017 1 4 9 0) ∧
     toEpochMinutes 2017 1 4 6 0 + 180 = toEpochMinutes 2017 1 4 9 0) := by
  constructor
  · intro grb d t e ts hd ht he h0t h0d hp
    have hsim : get_grib_layer_simulation_datetime grb = .ok ts := by
      simp [get_grib_layer_simulation_datetime, hd, ht, h0t, h0d, hp]
    refine ⟨hsim, ?_⟩
    simp only [get_grib_layer_validity_datetime, hsim, he]
    rfl
  · exact ⟨rfl, rfl, by decide⟩

/-- C6, witness: the general part of the theorem applied to the concrete
message of the spec example. -/
theorem C6_witness :
    (gC6.get "dataDate" = some (Value.int 20170104)) ∧
    (gC6.get "dataTime" = some (Value.int 600)) ∧
    (gC6.get "endStep" = some (Value.int 180)) ∧
    ((0 : Int) ≤ 600) ∧ ((0 : Int) ≤ 20170104) ∧
    (parseYmdHM (Int.toNat 20170104) (Int.toNat 600) =
      some (toEpochMinutes 2017 1 4 6 0)) ∧
    get_grib_layer_simulation_datetime gC6 = .ok (toEpochMinutes 2017 1 4 6 0) ∧
    get_grib_layer_validity_datetime gC6 = .ok (toEpochMinutes 2017 1 4 6 0 + 180) :=
  ⟨rfl, rfl, rfl, by decide, by decide, rfl,
    C6_thm.1 gC6 20170104 600 180 (toEpochMinutes 2017 1 4 6 0)
      rfl rfl rfl (by decide) (by decide) rfl⟩

theorem mem_insertRow (r s : String × List (Option Value))
    (l : List (String × List (Option Value))) :
    s ∈ insertRow r l ↔ s = r ∨ s ∈ l := by
  induction l with
  | nil => simp [insertRow]
  | cons a rest ih =>
    by_cases h : r.1 ≤ a.1
    · simp [insertRow, h]
    · simp [insertRow, h, ih]
      tauto

theorem mem_sortRowsByName (s : String × List (Option Value))
    (l : List (String × List (Option Value))) :
    s ∈ sortRowsByName l ↔ s ∈ l := by
  induction l with
  | nil => simp [sortRowsByName]
  | cons a rest ih =>
    rw [show sortRowsByName (a :: rest) = insertRow a (sortRowsByName rest) from rfl,
      mem_insertRow, ih]
    simp

/-- C10: a report table row all of whose sentinel-normalized cells are
null is selected neither into the common section nor into the per-layer
section, since the distinct-value count ignores null cells and therefore
yields zero for such a row. -/
theorem C10_thm (grbs : List GribMsg) (g0 : GribMsg) (r : String × List (Option Value))
    (_hr : r ∈ tableRows grbs g0) (hnull : ∀ c ∈ r.2, c = none) :
    r ∉ df_same (tableRows grbs g0) ∧ r ∉ df_unique (tableRows grbs g0) := by
  have h0 : nunique r.2 = 0 := by
    have hfm : r.2.filterMap id = [] := by
      rw [List.filterMap_eq_nil_iff]
      intro a ha
      exact hnull a ha
    simp [nunique, hfm]
  constructor
  · intro hmem
    have h2 := (List.mem_filter.mp ((mem_sortRowsByName r _).mp hmem)).2
    rw [h0] at h2
    simp at h2
  · intro hmem
    have h2 := (List.mem_filter.mp hmem).2
    rw [h0] at h2
    simp at h2

/-- C10, witness: the theorem applied to the concrete report table of two
messages on which the only attribute is array-valued on the first and
unreadable on the second, so its row is all null. -/
theorem C10_witness :
    (("codedValues", ([none, none] : List (Option Value))) ∈
      tableRows [gArrA, gArrB] gArrA) ∧
    (∀ c ∈ ([none, none] : List (Option Value)), c = none) ∧
    (("codedValues", ([none, none] : List (Option Value))) ∉
      df_same (tableRows [gArrA, gArrB] gArrA) ∧
     ("codedValues", ([none, none] : List (Option Value))) ∉
      df_unique (tableRows [gArrA, gArrB] gArrA)) :=
  ⟨by decide, by decide,
    C10_thm [gArrA, gArrB] gArrA ("codedValues", [none, none]) (by decide) (by decide)⟩

end GribUtils
